import Mathlib

/-!
Verification of the match state machine of the reveal bot (src/index.js).

The source keeps one process-wide `Map` called `matchData` from a thread id
to a record `{ playerA: string|null, playerB: string|null, ids: [idA, idB] }`
(src/index.js line 15).  The three slash-command branches of the
`interactionCreate` handler (startmatch / submit / reveal), the
`messageCreate` handler, and the `setTimeout` expiry callback are embedded
below as pure functions on an explicit registry value.  JavaScript falsiness
of the slot values (`!data.playerA`, line 145: `null` and `""` are both
falsy) is modelled by the `truthy` function on `Option String`.  External
effects (message sends, ephemeral replies, message/thread deletion) are
recorded as an ordered event list, so that claims about effect ordering can
be stated; the in-memory registry deletion is recorded in that same list as
the (internal) event `removeRecord`.
-/

namespace RevealBot

/-- One match record, mirroring
`{ playerA: string|null, playerB: string|null, ids: [idA, idB] }`
(src/index.js line 15, populated at line 107). -/
structure MatchState where
  playerA : Option String
  playerB : Option String
  ids : String × String
  deriving DecidableEq, Repr

/-- The in-memory store `matchData` (line 15): an association list from
thread id to match record, with `Map` get/set/delete semantics. -/
abbrev Registry := List (String × MatchState)

/-- `matchData.get(k)`. -/
def rget : Registry → String → Option MatchState
  | [], _ => none
  | p :: rest, k => if p.1 == k then some p.2 else rget rest k

/-- `matchData.set(k, v)`: replace the entry in place when the key is
present, otherwise append. -/
def rset : Registry → String → MatchState → Registry
  | [], k, v => [(k, v)]
  | p :: rest, k, v => if p.1 == k then (k, v) :: rest else p :: rset rest k v

/-- `matchData.delete(k)`. -/
def rdelete : Registry → String → Registry
  | [], _ => []
  | p :: rest, k => if p.1 == k then rdelete rest k else p :: rdelete rest k

/-- JavaScript truthiness of a slot value: `null` (absent) and the empty
string are both falsy (relevant at line 145, `!data.playerA`). -/
def truthy : Option String → Bool
  | none => false
  | some s => s != ""

/-- Outcome classification of the submit branch (lines 121-137) and of the
corresponding classification implicit in the `messageCreate` handler. -/
inductive SubmitOutcome where
  | NoSuchMatch
  | NotAParticipant
  | Recorded
  deriving DecidableEq, Repr

/-- Outcome classification of the reveal branch (lines 139-160).  `Errored`
is the branch where the disclosure send at line 157 throws and the
`catch` at line 161 answers with a generic failure notice. -/
inductive RevealOutcome where
  | NoSuchMatch
  | Incomplete
  | Errored
  | Revealed (a b : String)
  deriving DecidableEq, Repr

/-- The observable effects the handlers issue, in program order.
`removeRecord` is the in-memory `matchData.delete` (internal); every other
constructor is an external effect against the chat platform. -/
inductive Event where
  | sendEmbed (fieldA fieldB : String)
  | sendMessage (content : String)
  | reply (content : String)
  | deleteMessage
  | deleteChannel (key : String)
  | removeRecord (key : String)
  deriving DecidableEq, Repr

/-- Everything except the in-memory registry deletion is an external
effect. -/
def Event.isExternal : Event → Bool
  | .removeRecord _ => false
  | _ => true

/-- Recognise the in-memory registry deletion event. -/
def Event.isRemoveRecord : Event → Bool
  | .removeRecord _ => true
  | _ => false

/-- The state transition of the startmatch branch (line 107):
`matchData.set(thread.id, { playerA: null, playerB: null, ids: [starter.id, opponent.id] })`.
The source performs the `set` unconditionally, with no presence check. -/
def create (r : Registry) (threadId starterId opponentId : String) : Registry :=
  rset r threadId ⟨none, none, (starterId, opponentId)⟩

/-- The submit branch (lines 121-137), with its ephemeral replies recorded
as events: no record ⇒ invalid-thread reply; submitter not in `data.ids` ⇒
players-only reply; otherwise write the slot (`ids[0]` owns `playerA`,
anyone else `playerB`, line 132-133) and acknowledge. -/
def submitH (r : Registry) (threadId userId choice : String) :
    SubmitOutcome × Registry × List Event :=
  match rget r threadId with
  | none =>
      (.NoSuchMatch, r,
       [.reply "This thread is not a valid match. Use /submit inside the match thread."])
  | some data =>
      if userId == data.ids.1 || userId == data.ids.2 then
        let data2 := if userId == data.ids.1 then { data with playerA := some choice }
                     else { data with playerB := some choice }
        (.Recorded, rset r threadId data2,
         [.reply "Your choice has been recorded (hidden)."])
      else
        (.NotAParticipant, r,
         [.reply "Only the two match players can submit here."])

/-- Outcome and registry of the submit branch. -/
def submit (r : Registry) (threadId userId choice : String) :
    SubmitOutcome × Registry :=
  ((submitH r threadId userId choice).1, (submitH r threadId userId choice).2.1)

/-- The `messageCreate` handler (lines 175-198) for a non-bot author, with
the scrub-and-announce effects recorded as events.  No record or an author
outside `data.ids` falls through silently (no reply); a participant author
has the slot written (`ids[0]` ⇒ `playerA`, `ids[1]` ⇒ `playerB`,
lines 183-187) and the source message is deleted best-effort: when the
deletion throws, the capture still stands and a different announcement is
posted (lines 190-196).  `deleteOk` says whether `msg.delete()` succeeds. -/
def msgSubmitH (r : Registry) (threadId authorId authorName content : String)
    (deleteOk : Bool) : SubmitOutcome × Registry × List Event :=
  match rget r threadId with
  | none => (.NoSuchMatch, r, [])
  | some data =>
      if authorId == data.ids.1 || authorId == data.ids.2 then
        let data2 := if authorId == data.ids.1 then { data with playerA := some content }
                     else if authorId == data.ids.2 then { data with playerB := some content }
                     else data
        (.Recorded, rset r threadId data2,
         if deleteOk then
           [.deleteMessage,
            .sendMessage (authorName ++ " has submitted their choice (hidden).")]
         else
           [.sendMessage (authorName ++ " has submitted their choice, but I could not delete their message. Please make sure I have the **Manage Messages** permission.")])
      else
        (.NotAParticipant, r, [])

/-- Outcome and registry of the `messageCreate` path. -/
def msgSubmit (r : Registry) (threadId authorId authorName content : String)
    (deleteOk : Bool) : SubmitOutcome × Registry :=
  ((msgSubmitH r threadId authorId authorName content deleteOk).1,
   (msgSubmitH r threadId authorId authorName content deleteOk).2.1)

/-- The reveal branch (lines 139-160), with effects in program order: no
record ⇒ invalid-thread reply; `!data.playerA || !data.playerB` (JS
falsiness, line 145) ⇒ not-all-submitted reply; otherwise the disclosure
embed is sent (line 157), the requester is acknowledged (line 158), and only
then is the record deleted (line 159).  `sendOk` says whether the embed send
at line 157 succeeds; when it throws, the `catch` at line 161 replies with
the generic failure notice and the deletion at line 159 never runs. -/
def revealH (r : Registry) (threadId : String) (sendOk : Bool) :
    RevealOutcome × Registry × List Event :=
  match rget r threadId with
  | none =>
      (.NoSuchMatch, r,
       [.reply "This thread is not a valid match. Make sure you run /reveal inside the match thread."])
  | some data =>
      if !truthy data.playerA || !truthy data.playerB then
        (.Incomplete, r,
         [.reply "Not all players have submitted their choice yet."])
      else
        if sendOk then
          (.Revealed (data.playerA.getD "") (data.playerB.getD ""),
           rdelete r threadId,
           [.sendEmbed (data.playerA.getD "") (data.playerB.getD ""),
            .reply "Choices revealed!",
            .removeRecord threadId])
        else
          (.Errored, r,
           [.reply "Unexpected error handling this command."])

/-- Outcome and registry of the reveal branch when the platform sends
succeed. -/
def reveal (r : Registry) (threadId : String) : RevealOutcome × Registry :=
  ((revealH r threadId true).1, (revealH r threadId true).2.1)

/-- The `setTimeout` expiry callback (lines 113-118): try to delete the
thread (the failure is swallowed by `catch`), then delete the record
unconditionally.  `deleteOk` says whether the thread deletion succeeds; the
callback behaves identically either way. -/
def expireH (r : Registry) (threadId : String) (deleteOk : Bool) :
    Registry × List Event :=
  (rdelete r threadId, [.deleteChannel threadId, .removeRecord threadId])

/-- Registry after the expiry callback fires. -/
def expire (r : Registry) (threadId : String) : Registry :=
  (expireH r threadId true).1

/-- The registry-removal event occurs before any external effect is
attempted: among the events preceding the first external one there is a
`removeRecord`. -/
def removalCommittedFirst (tr : List Event) : Bool :=
  (tr.takeWhile fun e => !e.isExternal).any fun e => e.isRemoveRecord

/-- The spec's distinctness invariant on a record's participant pair. -/
def distinctIds (d : MatchState) : Bool :=
  d.ids.1 != d.ids.2

/-- Every record in the registry has two distinct participant ids. -/
def allDistinct (r : Registry) : Bool :=
  r.all fun p => distinctIds p.2

/- ### Registry lemmas -/

theorem rget_rset_self (r : Registry) (k : String) (v : MatchState) :
    rget (rset r k v) k = some v := by
  induction r with
  | nil => simp [rget, rset]
  | cons p rest ih =>
      by_cases h : p.1 == k
      · simp [rset, h, rget]
      · simp [rset, h, rget, ih]

theorem rget_rset_ne (r : Registry) (k k' : String) (v : MatchState)
    (h : k ≠ k') : rget (rset r k v) k' = rget r k' := by
  induction r with
  | nil => simp [rget, rset, h]
  | cons p rest ih =>
      by_cases hp : p.1 == k
      · have hpk : p.1 = k := by simpa using hp
        simp [rset, hp, rget, hpk, h]
      · simp [rset, hp, rget, ih]

theorem rget_rdelete_self (r : Registry) (k : String) :
    rget (rdelete r k) k = none := by
  induction r with
  | nil => simp [rget, rdelete]
  | cons p rest ih =>
      by_cases h : p.1 == k
      · simp [rdelete, h, ih]
      · simp [rdelete, h, rget, ih]

/- ### Reduction lemmas for the handler branches -/

theorem submit_none (r : Registry) (t u v : String) (h : rget r t = none) :
    submit r t u v = (.NoSuchMatch, r) := by
  simp [submit, submitH, h]

theorem submit_found (r : Registry) (t u v : String) (d : MatchState)
    (h : rget r t = some d) :
    submit r t u v =
      if u == d.ids.1 then (.Recorded, rset r t { d with playerA := some v })
      else if u == d.ids.2 then (.Recorded, rset r t { d with playerB := some v })
      else (.NotAParticipant, r) := by
  by_cases h1 : u == d.ids.1 <;> by_cases h2 : u == d.ids.2 <;>
    simp [submit, submitH, h, h1, h2]

theorem reveal_none (r : Registry) (t : String) (h : rget r t = none) :
    reveal r t = (.NoSuchMatch, r) := by
  simp [reveal, revealH, h]

theorem reveal_found (r : Registry) (t : String) (d : MatchState)
    (h : rget r t = some d) :
    reveal r t =
      if truthy d.playerA && truthy d.playerB then
        (.Revealed (d.playerA.getD "") (d.playerB.getD ""), rdelete r t)
      else (.Incomplete, r) := by
  by_cases ha : truthy d.playerA <;> by_cases hb : truthy d.playerB <;>
    simp [reveal, revealH, h, ha, hb]

/- ### Claims -/

/-- C1: for a fresh channel key `c` and distinct participants `P1 ≠ P2`,
the sequence create; submit(P1,"X"); reveal fails Incomplete and keeps the
record; then submit(P2,"Y"); reveal succeeds disclosing ("X","Y") in
participant-slot order and removes the record; a further reveal fails
NoSuchMatch. -/
theorem C1_end_to_end (r0 : Registry) (c P1 P2 : String)
    (hfresh : rget r0 c = none) (hne : P1 ≠ P2) :
    let r1 := create r0 c P1 P2
    let s1 := submit r1 c P1 "X"
    let v1 := reveal s1.2 c
    let s2 := submit v1.2 c P2 "Y"
    let v2 := reveal s2.2 c
    let v3 := reveal v2.2 c
    s1.1 = .Recorded ∧
    v1.1 = .Incomplete ∧
    rget v1.2 c = some ⟨some "X", none, (P1, P2)⟩ ∧
    s2.1 = .Recorded ∧
    v2.1 = .Revealed "X" "Y" ∧
    rget v2.2 c = none ∧
    v3.1 = .NoSuchMatch := by
  intro r1 s1 v1 s2 v2 v3
  have h1 : rget r1 c = some ⟨none, none, (P1, P2)⟩ := rget_rset_self r0 c _
  have hs1 : s1 = (.Recorded, rset r1 c ⟨some "X", none, (P1, P2)⟩) := by
    rw [show s1 = submit r1 c P1 "X" from rfl, submit_found r1 c P1 "X" _ h1]
    simp
  have h2 : rget s1.2 c = some ⟨some "X", none, (P1, P2)⟩ := by
    rw [hs1]; exact rget_rset_self r1 c _
  have hv1 : v1 = (.Incomplete, s1.2) := by
    rw [show v1 = reveal s1.2 c from rfl, reveal_found s1.2 c _ h2]
    simp [truthy]
  have h3 : rget v1.2 c = some ⟨some "X", none, (P1, P2)⟩ := by rw [hv1]; exact h2
  have hP21 : (P2 == P1) = false := by
    simp [hne, Ne.symm hne]
  have hs2 : s2 = (.Recorded, rset v1.2 c ⟨some "X", some "Y", (P1, P2)⟩) := by
    rw [show s2 = submit v1.2 c P2 "Y" from rfl, submit_found v1.2 c P2 "Y" _ h3]
    simp [hP21]
  have h4 : rget s2.2 c = some ⟨some "X", some "Y", (P1, P2)⟩ := by
    rw [hs2]; exact rget_rset_self v1.2 c _
  have hv2 : v2 = (.Revealed "X" "Y", rdelete s2.2 c) := by
    rw [show v2 = reveal s2.2 c from rfl, reveal_found s2.2 c _ h4]
    simp [truthy]
  have h5 : rget v2.2 c = none := by rw [hv2]; exact rget_rdelete_self s2.2 c
  have hv3 : v3.1 = .NoSuchMatch := by
    rw [show v3 = reveal v2.2 c from rfl, reveal_none v2.2 c h5]
  refine ⟨by rw [hs1], by rw [hv1], h3, by rw [hs2], by rw [hv2], h5, hv3⟩

/-- Witness for C1 at a concrete fresh registry and distinct participants. -/
theorem C1_end_to_end_witness :
    rget ([] : Registry) "t" = none ∧ "p1" ≠ "p2" ∧
    (reveal (submit (reveal (submit (create [] "t" "p1" "p2") "t" "p1" "X").2 "t").2
        "t" "p2" "Y").2 "t").1 = .Revealed "X" "Y" :=
  ⟨rfl, by decide,
   (C1_end_to_end [] "t" "p1" "p2" rfl (by decide)).2.2.2.2.1⟩

/-- C6: after the expiry callback fires for a key, the record is removed
unconditionally, whatever the submission progress, and a subsequent submit
on that key (through either ingress path) fails with NoSuchMatch and leaves
the registry unchanged. -/
theorem C6_expiry_removes (r : Registry) (t : String) :
    rget (expire r t) t = none ∧
    ∀ u name v : String, ∀ ok : Bool,
      submit (expire r t) t u v = (.NoSuchMatch, expire r t) ∧
      msgSubmit (expire r t) t u name v ok = (.NoSuchMatch, expire r t) := by
  have h : rget (expire r t) t = none := rget_rdelete_self r t
  exact ⟨h, fun u name v ok =>
    ⟨submit_none _ t u v h, by simp [msgSubmit, msgSubmitH, h]⟩⟩

/-- C9: a submit from an identifier that is neither of the record's two
participant ids fails with NotAParticipant and leaves the registry (hence
both slots) unchanged, on both ingress paths. -/
theorem C9_not_a_participant (r : Registry) (t u v : String) (d : MatchState)
    (hd : rget r t = some d) (h1 : u ≠ d.ids.1) (h2 : u ≠ d.ids.2) :
    submit r t u v = (.NotAParticipant, r) ∧
    ∀ name : String, ∀ ok : Bool,
      msgSubmit r t u name v ok = (.NotAParticipant, r) := by
  constructor
  · rw [submit_found r t u v d hd]; simp [h1, h2]
  · intro name ok
    simp [msgSubmit, msgSubmitH, hd, h1, h2]

/-- Witness for C9: an outsider "z" submitting to a recorded match. -/
theorem C9_not_a_participant_witness :
    submit [("t", ⟨none, none, ("a", "b")⟩)] "t" "z" "v" =
      (.NotAParticipant, [("t", ⟨none, none, ("a", "b")⟩)]) :=
  (C9_not_a_participant [("t", ⟨none, none, ("a", "b")⟩)] "t" "z" "v"
    ⟨none, none, ("a", "b")⟩ rfl (by decide) (by decide)).1

/-- C10 counterexample: the startmatch branch performs `matchData.set`
unconditionally (line 107); when the channel key is already present, create
does not fail with AlreadyExists — it replaces the existing record (here one
holding a submission) with a fresh one. -/
theorem C10_create_overwrites_cex :
    rget (create [("t", ⟨some "X", none, ("p1", "p2")⟩)] "t" "q1" "q2") "t" =
      some ⟨none, none, ("q1", "q2")⟩ := by
  decide

/-- C10 amended: create never fails; it unconditionally stores a fresh
record with both slots absent under the key (replacing any existing record),
and leaves every other key untouched. -/
theorem C10_create_fresh (r : Registry) (t a b : String) :
    rget (create r t a b) t = some ⟨none, none, (a, b)⟩ ∧
    ∀ k : String, k ≠ t → rget (create r t a b) k = rget r k :=
  ⟨rget_rset_self r t _, fun k hk => rget_rset_ne r t k _ (Ne.symm hk)⟩

/-- Witness for C10 amended at a concrete registry. -/
theorem C10_create_fresh_witness :
    rget (create [("s", ⟨none, none, ("x", "y")⟩)] "t" "a" "b") "t" =
        some ⟨none, none, ("a", "b")⟩ ∧
    rget (create [("s", ⟨none, none, ("x", "y")⟩)] "t" "a" "b") "s" =
        rget [("s", ⟨none, none, ("x", "y")⟩)] "s" :=
  ⟨(C10_create_fresh [("s", ⟨none, none, ("x", "y")⟩)] "t" "a" "b").1,
   (C10_create_fresh [("s", ⟨none, none, ("x", "y")⟩)] "t" "a" "b").2 "s" (by decide)⟩

/-- C7 counterexample: the startmatch branch never checks that the starter
and the opponent differ, so create with the same identifier in both
positions yields a registry record whose two participant ids are equal —
the "two distinct participant identifiers" invariant fails. -/
theorem C7_distinct_cex :
    allDistinct (create [] "t" "p" "p") = false := by
  decide

/-- C7 amended: every record carries exactly two participant ids (a pair),
set at the create operation and never changed by submit (either path) or by
an unsuccessful reveal; a successful reveal and expiry remove the record
outright. -/
theorem C7_ids_fixed (r : Registry) (t u name v : String) (ok : Bool)
    (d : MatchState) (hd : rget r t = some d) :
    rget (create r t u v) t = some ⟨none, none, (u, v)⟩ ∧
    (∀ d' : MatchState, rget (submit r t u v).2 t = some d' → d'.ids = d.ids) ∧
    (∀ d' : MatchState,
      rget (msgSubmit r t u name v ok).2 t = some d' → d'.ids = d.ids) ∧
    (∀ d' : MatchState, rget (reveal r t).2 t = some d' → d'.ids = d.ids) ∧
    rget (expire r t) t = none := by
  refine ⟨rget_rset_self r t _, ?_, ?_, ?_, rget_rdelete_self r t⟩
  · intro d' hd'
    rw [submit_found r t u v d hd] at hd'
    by_cases h1 : u == d.ids.1 <;> by_cases h2 : u == d.ids.2 <;>
      simp [h1, h2, rget_rset_self, hd] at hd' <;> simp [← hd']
  · intro d' hd'
    simp only [msgSubmit, msgSubmitH, hd] at hd'
    by_cases h1 : u == d.ids.1 <;> by_cases h2 : u == d.ids.2 <;>
      simp [h1, h2, rget_rset_self, hd] at hd' <;> simp [← hd']
  · intro d' hd'
    rw [reveal_found r t d hd] at hd'
    by_cases hc : truthy d.playerA && truthy d.playerB
    · simp [hc, rget_rdelete_self] at hd'
    · simp [hc, hd] at hd'
      simp [← hd']

/-- Witness for C7 amended: ids survive a submit on a concrete match. -/
theorem C7_ids_fixed_witness :
    (MatchState.mk (some "v") none ("a", "b")).ids =
      (MatchState.mk none none ("a", "b")).ids :=
  (C7_ids_fixed [("t", ⟨none, none, ("a", "b")⟩)] "t" "a" "nm" "v" true
    ⟨none, none, ("a", "b")⟩ rfl).2.1 ⟨some "v", none, ("a", "b")⟩ (by decide)

/-- C2 counterexample: in the reveal success path the disclosure embed
(line 157) and the requester acknowledgment (line 158) are sent before
`matchData.delete` runs (line 159), so the registry removal is not committed
before the external effects — even though the removal does occur and the
reveal succeeds. -/
theorem C2_reveal_order_cex :
    removalCommittedFirst
      (revealH [("t", ⟨some "X", some "Y", ("p1", "p2")⟩)] "t" true).2.2 = false ∧
    ((revealH [("t", ⟨some "X", some "Y", ("p1", "p2")⟩)] "t" true).2.2.any
      fun e => e.isRemoveRecord) = true ∧
    (revealH [("t", ⟨some "X", some "Y", ("p1", "p2")⟩)] "t" true).1 =
      .Revealed "X" "Y" := by
  decide

/-- C2 amended: the expiry path removes the record unconditionally and
behaves identically whether the external channel deletion succeeds or not;
the reveal path, in contrast, sends the disclosure before the removal, and
when the disclosure send fails the record is not removed at all (no removal
event, registry unchanged). -/
theorem C2_commit_order (r : Registry) (t : String) (d : MatchState) (ok : Bool)
    (hd : rget r t = some d) (ha : truthy d.playerA = true)
    (hb : truthy d.playerB = true) :
    (expireH r t ok = (rdelete r t, [.deleteChannel t, .removeRecord t]) ∧
      rget (expireH r t ok).1 t = none) ∧
    (revealH r t true).2.2 =
      [.sendEmbed (d.playerA.getD "") (d.playerB.getD ""),
       .reply "Choices revealed!", .removeRecord t] ∧
    rget (revealH r t true).2.1 t = none ∧
    (revealH r t false).2.1 = r ∧
    ((revealH r t false).2.2.any fun e => e.isRemoveRecord) = false := by
  refine ⟨⟨rfl, rget_rdelete_self r t⟩, ?_, ?_, ?_, ?_⟩ <;>
    simp [revealH, hd, ha, hb, rget_rdelete_self, Event.isRemoveRecord]

/-- Witness for C2 amended on a concrete complete match. -/
theorem C2_commit_order_witness :
    rget (revealH [("t", ⟨some "X", some "Y", ("p1", "p2")⟩)] "t" true).2.1 "t" =
        none ∧
    (revealH [("t", ⟨some "X", some "Y", ("p1", "p2")⟩)] "t" false).2.1 =
        [("t", ⟨some "X", some "Y", ("p1", "p2")⟩)] :=
  ⟨(C2_commit_order [("t", ⟨some "X", some "Y", ("p1", "p2")⟩)] "t"
      ⟨some "X", some "Y", ("p1", "p2")⟩ false (by decide) (by decide)
      (by decide)).2.2.1,
   (C2_commit_order [("t", ⟨some "X", some "Y", ("p1", "p2")⟩)] "t"
      ⟨some "X", some "Y", ("p1", "p2")⟩ false (by decide) (by decide)
      (by decide)).2.2.2.1⟩

/-- C3: the visible outputs of a submission are independent of the
submitted value, on both ingress paths: two runs with different values have
the same outcome classification and emit identical event lists (the value
reaches only the stored slot, never an output before reveal). -/
theorem C3_value_noninterference (r : Registry) (t u name v1 v2 : String)
    (ok : Bool) :
    (submitH r t u v1).1 = (submitH r t u v2).1 ∧
    (submitH r t u v1).2.2 = (submitH r t u v2).2.2 ∧
    (msgSubmitH r t u name v1 ok).1 = (msgSubmitH r t u name v2 ok).1 ∧
    (msgSubmitH r t u name v1 ok).2.2 = (msgSubmitH r t u name v2 ok).2.2 := by
  cases hr : rget r t with
  | none => simp [submitH, msgSubmitH, hr]
  | some d =>
      by_cases h1 : u == d.ids.1 <;> by_cases h2 : u == d.ids.2 <;>
        simp [submitH, msgSubmitH, hr, h1, h2]

/-- C4 counterexample: JS falsiness at line 145 (`!data.playerA`) conflates
a submitted empty string with an absent slot.  After both participants
submit — one of them the empty string — both slots are present in the
record, yet reveal fails with Incomplete instead of succeeding. -/
theorem C4_empty_is_incomplete_cex :
    ((rget (submit (submit (create [] "t" "p1" "p2") "t" "p1" "").2 "t" "p2" "Y").2
        "t").map fun d => (d.playerA, d.playerB)) = some (some "", some "Y") ∧
    (reveal (submit (submit (create [] "t" "p1" "p2") "t" "p1" "").2 "t" "p2" "Y").2
        "t").1 = .Incomplete := by
  decide

/-- C4 amended: a stored empty-string submission is treated by reveal
exactly like an absent slot: with both slots submitted, reveal fails with
Incomplete (leaving the record) when either stored value is the empty
string, and succeeds, disclosing both values and removing the record, when
both are nonempty. -/
theorem C4_empty_value (r : Registry) (t a b : String) (d : MatchState)
    (hd : rget r t = some d) (ha : d.playerA = some a) (hb : d.playerB = some b) :
    ((a = "" ∨ b = "") → reveal r t = (.Incomplete, r)) ∧
    (a ≠ "" → b ≠ "" →
      reveal r t = (.Revealed a b, rdelete r t) ∧ rget (reveal r t).2 t = none) := by
  constructor
  · intro hab
    rw [reveal_found r t d hd]
    rcases hab with h | h <;> simp [truthy, ha, hb, h]
  · intro ha' hb'
    rw [reveal_found r t d hd]
    simp [truthy, ha, hb, ha', hb', rget_rdelete_self]

/-- Witness for C4 amended: an empty submission makes reveal Incomplete. -/
theorem C4_empty_value_witness :
    reveal [("t", ⟨some "", some "Y", ("p1", "p2")⟩)] "t" =
      (.Incomplete, [("t", ⟨some "", some "Y", ("p1", "p2")⟩)]) :=
  (C4_empty_value [("t", ⟨some "", some "Y", ("p1", "p2")⟩)] "t" "" "Y"
    ⟨some "", some "Y", ("p1", "p2")⟩ rfl rfl rfl).1 (Or.inl rfl)

/-- C5: the explicit /submit command path and the implicit in-channel
message path implement the identical submit contract: same outcome
classification (NoSuchMatch with no active record, NotAParticipant for an
outsider, Recorded otherwise) and the identical registry effect for every
triple (channelKey, submitterId, value). -/
theorem C5_paths_equivalent (r : Registry) (t u name v : String) (ok : Bool) :
    ((msgSubmitH r t u name v ok).1 = (submitH r t u v).1 ∧
     (msgSubmitH r t u name v ok).2.1 = (submitH r t u v).2.1) ∧
    (rget r t = none → submit r t u v = (.NoSuchMatch, r)) ∧
    (∀ d : MatchState, rget r t = some d → u ≠ d.ids.1 → u ≠ d.ids.2 →
      submit r t u v = (.NotAParticipant, r)) ∧
    (∀ d : MatchState, rget r t = some d → (u = d.ids.1 ∨ u = d.ids.2) →
      (submit r t u v).1 = .Recorded) := by
  refine ⟨?_, fun h => submit_none r t u v h, ?_, ?_⟩
  · cases hr : rget r t with
    | none => simp [submitH, msgSubmitH, hr]
    | some d =>
        by_cases h1 : u == d.ids.1 <;> by_cases h2 : u == d.ids.2 <;>
          simp [submitH, msgSubmitH, hr, h1, h2]
  · intro d hd h1 h2
    rw [submit_found r t u v d hd]; simp [h1, h2]
  · intro d hd hu
    rw [submit_found r t u v d hd]
    by_cases h1 : u == d.ids.1
    · simp [h1]
    · have h2 : (u == d.ids.2) = true := by
        rcases hu with h | h
        · exact absurd (by simp [h]) h1
        · simp [h]
      simp [h1, h2]

/-- Witness for C5 on a concrete match and participant. -/
theorem C5_paths_equivalent_witness :
    (msgSubmitH [("t", ⟨none, none, ("a", "b")⟩)] "t" "a" "nm" "v" true).1 =
      (submitH [("t", ⟨none, none, ("a", "b")⟩)] "t" "a" "v").1 ∧
    (submit [("t", ⟨none, none, ("a", "b")⟩)] "t" "a" "v").1 = .Recorded :=
  ⟨(C5_paths_equivalent _ "t" "a" "nm" "v" true).1.1,
   (C5_paths_equivalent _ "t" "a" "nm" "v" true).2.2.2 ⟨none, none, ("a", "b")⟩
     rfl (Or.inl rfl)⟩

/-- C8 counterexample: overwriting "rock" with the empty string does leave
the slot equal to the overwriting value (last write wins on the slot), but
reveal — after the other participant also submits — then fails with
Incomplete via the falsy check at line 145 instead of disclosing v2, so the
claim's disclosure consequence is false at v2 = "". -/
theorem C8_empty_overwrite_cex :
    ((rget (submit (submit (submit (create [] "t" "a" "b") "t" "a" "rock").2
        "t" "a" "").2 "t" "b" "s").2 "t").map fun d => d.playerA) = some (some "") ∧
    (reveal (submit (submit (submit (create [] "t" "a" "b") "t" "a" "rock").2
        "t" "a" "").2 "t" "b" "s").2 "t").1 = .Incomplete := by
  decide

/-- C8 amended: submission is last-write-wins per slot: after submitting v1
then v2 for the same participant, that participant's slot holds v2 and the
other slot is untouched.  Once the other participant submits w, reveal
discloses v2 (in that participant's slot position, not v1) provided v2 and
w are nonempty; when v2 or w is the empty string, reveal instead fails with
Incomplete (the falsy check at line 145) and discloses nothing — in
particular it never discloses v1 either. -/
theorem C8_last_write_wins (r : Registry) (t u v1 v2 w : String) (d : MatchState)
    (hd : rget r t = some d) (hu : u = d.ids.1 ∨ u = d.ids.2)
    (hne : d.ids.1 ≠ d.ids.2) :
    let r2 := (submit (submit r t u v1).2 t u v2).2
    let other := if u == d.ids.1 then d.ids.2 else d.ids.1
    rget r2 t = some (if u == d.ids.1 then { d with playerA := some v2 }
                      else { d with playerB := some v2 }) ∧
    (v2 ≠ "" → w ≠ "" →
      (reveal (submit r2 t other w).2 t).1 =
        (if u == d.ids.1 then .Revealed v2 w else .Revealed w v2)) ∧
    ((v2 = "" ∨ w = "") →
      (reveal (submit r2 t other w).2 t).1 = .Incomplete) := by
  intro r2 other
  by_cases h1 : u == d.ids.1
  · have hr1 : rget (submit r t u v1).2 t = some { d with playerA := some v1 } := by
      rw [submit_found r t u v1 d hd]; simp [h1, rget_rset_self]
    have hr2 : rget r2 t = some { d with playerA := some v2 } := by
      rw [show r2 = (submit (submit r t u v1).2 t u v2).2 from rfl,
        submit_found _ t u v2 _ hr1]
      simp [h1, rget_rset_self]
    have hob : (other == d.ids.1) = false := by
      simp only [other, h1, if_true]
      simp [Ne.symm hne]
    have hr3 : rget (submit r2 t other w).2 t =
        some { d with playerA := some v2, playerB := some w } := by
      rw [submit_found r2 t other w _ hr2]
      simp only [other, h1, if_true] at hob ⊢
      simp [hob, rget_rset_self]
    refine ⟨hr2.trans (by simp [h1]), ?_, ?_⟩
    · intro hv2 hw
      rw [reveal_found _ t _ hr3]
      simp [truthy, hv2, hw, h1]
    · intro hvw
      rw [reveal_found _ t _ hr3]
      rcases hvw with h | h <;> simp [truthy, h]
  · have hb2 : (u == d.ids.2) = true := by
      rcases hu with h | h
      · exact absurd (by simp [h]) h1
      · simp [h]
    have hr1 : rget (submit r t u v1).2 t = some { d with playerB := some v1 } := by
      rw [submit_found r t u v1 d hd]; simp [h1, hb2, rget_rset_self]
    have hr2 : rget r2 t = some { d with playerB := some v2 } := by
      rw [show r2 = (submit (submit r t u v1).2 t u v2).2 from rfl,
        submit_found _ t u v2 _ hr1]
      simp [h1, hb2, rget_rset_self]
    have hob : other = d.ids.1 := by simp [other, h1]
    have hr3 : rget (submit r2 t other w).2 t =
        some { d with playerA := some w, playerB := some v2 } := by
      rw [submit_found r2 t other w _ hr2, hob]
      simp [rget_rset_self]
    refine ⟨hr2.trans (by simp [h1]), ?_, ?_⟩
    · intro hv2 hw
      rw [reveal_found _ t _ hr3]
      simp [truthy, hv2, hw, h1]
    · intro hvw
      rw [reveal_found _ t _ hr3]
      rcases hvw with h | h <;> simp [truthy, h]

/-- Witness for C8 amended: overwriting "r" with the nonempty "p" makes
reveal disclose "p", and overwriting with the empty string makes it fail
Incomplete. -/
theorem C8_last_write_wins_witness :
    (reveal (submit (submit (submit [("t", ⟨none, none, ("a", "b")⟩)] "t" "a" "r").2
        "t" "a" "p").2 "t" "b" "s").2 "t").1 = .Revealed "p" "s" ∧
    (reveal (submit (submit (submit [("t", ⟨none, none, ("a", "b")⟩)] "t" "a" "r").2
        "t" "a" "").2 "t" "b" "s").2 "t").1 = .Incomplete := by
  constructor
  · have h := (C8_last_write_wins [("t", ⟨none, none, ("a", "b")⟩)] "t" "a" "r" "p" "s"
        ⟨none, none, ("a", "b")⟩ rfl (Or.inl rfl) (by decide)).2.1
        (by decide) (by decide)
    simpa using h
  · have h := (C8_last_write_wins [("t", ⟨none, none, ("a", "b")⟩)] "t" "a" "r" "" "s"
        ⟨none, none, ("a", "b")⟩ rfl (Or.inl rfl) (by decide)).2.2 (Or.inl rfl)
    simpa using h

end RevealBot
